import Mathlib

/-!
Shallow embedding of the PerSpec coordination scripts.

The embedded code is the client-side request coordinator implemented in
`src/Editor/Coordination/Scripts/quick_menu.py` (class MenuCoordinator over the
SQLite table `menu_item_requests`, created by
`src/ScriptingTools/Coordination/Scripts/add_menu_table.py`) and in
`src/Editor/Coordination/Scripts/scene_hierarchy.py` (class
SceneHierarchyExporter over the table `scene_hierarchy_requests`, created by
`src/Editor/Coordination/Scripts/add_scene_hierarchy_table.py`).

Modelling conventions:
- a table is a list of (rowid, row) pairs together with the next AUTOINCREMENT
  rowid; an INSERT appends at the end and returns the fresh rowid
  (`cursor.lastrowid`);
- `CURRENT_TIMESTAMP` is an explicit `now : Nat` argument of the operations
  that insert rows; timestamps are naturals;
- the REAL column `duration_seconds` is modelled as a rational;
- a SELECT is a pure function of the table; an UPDATE or INSERT returns the new
  table; thus an operation whose embedding returns no table performs no write,
  mirroring the fact that the Python method issues only SELECT statements;
- in `wait_for_completion`, time advances only in `time.sleep(0.5)`; the poll
  made k sleeps after the start happens at elapsed time 0.5 * k seconds, so the
  loop guard `time.time() - start_time < timeout` becomes `k < 2 * timeout`,
  and the loop body runs at most `(2 * timeout).toNat` times. Writes by the
  external executor between polls are modelled by handing the loop a trace
  `sigma : Nat → MenuStore` giving the table contents seen at poll number k.
-/

/-- Row of the `menu_item_requests` table (add_menu_table.py, CREATE TABLE):
columns id (kept as the key of the association list), menu_path, status,
priority, created_at, started_at, completed_at, duration_seconds, result,
error_message. -/
structure MenuRow where
  menu_path : String
  status : String
  priority : Int
  created_at : Nat
  started_at : Option Nat
  completed_at : Option Nat
  duration_seconds : Rat
  result : Option String
  error_message : Option String
deriving Repr, DecidableEq

/-- Contents of the `menu_item_requests` table: rows keyed by rowid, plus the
next AUTOINCREMENT id. -/
structure MenuStore where
  rows : List (Nat × MenuRow)
  nextId : Nat
deriving Repr, DecidableEq

/-- Well-formedness guaranteed by SQLite for an AUTOINCREMENT primary key:
rowids are distinct and every stored rowid is below the next fresh one. -/
def MenuStore.Wf (s : MenuStore) : Prop :=
  (s.rows.map Prod.fst).Nodup ∧ ∀ p ∈ s.rows, p.1 < s.nextId

instance (s : MenuStore) : Decidable s.Wf := by
  unfold MenuStore.Wf; infer_instance

/-- MenuCoordinator.submit_menu_request: INSERT INTO menu_item_requests
(menu_path, priority) VALUES (?, ?); every other column takes its table
default: status defaults to the string pending, created_at is
CURRENT_TIMESTAMP (the `now` argument), started_at / completed_at are unset,
duration_seconds defaults to 0, result and error_message are NULL. Returns
`cursor.lastrowid` and the new table. The freshly inserted row is
newMenuRow. -/
def newMenuRow (menu_path : String) (priority : Int) (now : Nat) : MenuRow :=
  { menu_path := menu_path
    status := "pending"
    priority := priority
    created_at := now
    started_at := none
    completed_at := none
    duration_seconds := 0
    result := none
    error_message := none }

/-- Table change performed by the INSERT of submit_menu_request. -/
def submit_menu_request (s : MenuStore) (menu_path : String) (priority : Int)
    (now : Nat) : Nat × MenuStore :=
  (s.nextId,
    { rows := s.rows ++ [(s.nextId, newMenuRow menu_path priority now)]
      nextId := s.nextId + 1 })

/-- MenuCoordinator.get_request_status: SELECT ... FROM menu_item_requests
WHERE id = ?; returns the row as a dict, or None when no row has that id. -/
def get_request_status (s : MenuStore) (id : Nat) : Option MenuRow :=
  (s.rows.find? (fun p => p.1 == id)).map Prod.snd

/-- Predicate of the conditional UPDATE in MenuCoordinator.cancel_request:
WHERE id = ? AND status = the string pending. -/
def cancelHit (id : Nat) (p : Nat × MenuRow) : Bool :=
  p.1 == id && p.2.status == "pending"

/-- MenuCoordinator.cancel_request: UPDATE menu_item_requests SET status =
cancelled WHERE id = ? AND status = pending; returns `cursor.rowcount > 0`
together with the new table. -/
def cancel_request (s : MenuStore) (id : Nat) : Bool × MenuStore :=
  let updated := s.rows.map (fun p =>
    if cancelHit id p then (p.1, { p.2 with status := "cancelled" }) else p)
  (s.rows.any (cancelHit id), { s with rows := updated })

/-- ORDER BY priority DESC, created_at ASC of
MenuCoordinator.get_pending_requests, as a Boolean comparison on keyed rows. -/
def menuOrder (a b : Nat × MenuRow) : Bool :=
  decide (b.2.priority < a.2.priority) ||
    (a.2.priority == b.2.priority && decide (a.2.created_at ≤ b.2.created_at))

/-- MenuCoordinator.get_pending_requests: SELECT ... FROM menu_item_requests
WHERE status = pending ORDER BY priority DESC, created_at ASC. The Python
SELECT projects the columns id, menu_path, priority, created_at; the embedding
keeps whole keyed rows, which carries strictly more information. -/
def get_pending_requests (s : MenuStore) : List (Nat × MenuRow) :=
  (s.rows.filter (fun p => p.2.status == "pending")).mergeSort menuOrder

/-- Terminal-status test of MenuCoordinator.wait_for_completion, line 119 of
quick_menu.py: `status[...] in [completed, failed, cancelled]`. Note that the
string timeout is NOT in this list. -/
def menuTerminalCheck (st : String) : Bool :=
  st == "completed" || st == "failed" || st == "cancelled"

/-- Loop body of MenuCoordinator.wait_for_completion. `k` is the number of
sleeps performed so far (the current poll number), `fuel` the remaining
iterations allowed by the guard `k < 2 * timeout`. Each iteration reads the
table the external executor has produced by poll k, `sigma k`. -/
def wait_step (sigma : Nat → MenuStore) (id : Nat) : Nat → Nat → String
  | _, 0 => "timeout"
  | k, fuel + 1 =>
    match get_request_status (sigma k) id with
    | none => "not_found"
    | some row =>
      if menuTerminalCheck row.status then row.status
      else wait_step sigma id (k + 1) fuel

/-- MenuCoordinator.wait_for_completion: poll get_request_status every 0.5
seconds while elapsed time is below `timeout` seconds; return not_found when
the row vanishes, the stored status when it is in menuTerminalCheck, and the
local string timeout when the budget runs out. -/
def wait_for_completion (sigma : Nat → MenuStore) (id : Nat) (timeout : Int) :
    String :=
  wait_step sigma id 0 (2 * timeout).toNat

/-- Number of get_request_status reads performed by the loop of
wait_for_completion (same recursion structure as wait_step). -/
def wait_polls (sigma : Nat → MenuStore) (id : Nat) : Nat → Nat → Nat
  | _, 0 => 0
  | k, fuel + 1 =>
    match get_request_status (sigma k) id with
    | none => 1
    | some row =>
      if menuTerminalCheck row.status then 1
      else 1 + wait_polls sigma id (k + 1) fuel

/-- Number of get_request_status reads performed by
MenuCoordinator.wait_for_completion. -/
def wait_poll_count (sigma : Nat → MenuStore) (id : Nat) (timeout : Int) :
    Nat :=
  wait_polls sigma id 0 (2 * timeout).toNat

/-- Row of the `scene_hierarchy_requests` table
(add_scene_hierarchy_table.py, CREATE TABLE): request_type, target_path,
include_inactive / include_components (INTEGER flags), status, priority,
created_at, started_at, completed_at, output_file, error_message. -/
structure SceneRow where
  request_type : String
  target_path : Option String
  include_inactive : Int
  include_components : Int
  status : String
  priority : Int
  created_at : Nat
  started_at : Option Nat
  completed_at : Option Nat
  output_file : Option String
  error_message : Option String
deriving Repr, DecidableEq

/-- Contents of the `scene_hierarchy_requests` table. -/
structure SceneStore where
  rows : List (Nat × SceneRow)
  nextId : Nat
deriving Repr, DecidableEq

/-- SceneHierarchyExporter.ensure_table_exists: the SELECT against
sqlite_master succeeds exactly when the table is present; the database is
modelled as `Option SceneStore`, none standing for a database in which the
scene_hierarchy_requests table was never created. -/
def ensure_table_exists (db : Option SceneStore) : Bool :=
  db.isSome

/-- SceneHierarchyExporter.submit_export_request: when ensure_table_exists
fails the method returns -1 without touching the database; otherwise it runs
INSERT INTO scene_hierarchy_requests (request_type, target_path,
include_inactive, include_components, priority) VALUES (?, ?, ?, ?, ?), the
Boolean flags being stored as the integers 1 / 0, the remaining columns taking
their table defaults (status pending, created_at = CURRENT_TIMESTAMP = `now`,
the rest NULL), and returns `cursor.lastrowid`. -/
def submit_export_request (db : Option SceneStore) (request_type : String)
    (target_path : Option String)
    (include_inactive include_components : Bool)
    (priority : Int) (now : Nat) : Int × Option SceneStore :=
  if ensure_table_exists db then
    match db with
    | none => (-1, db)
    | some s =>
      let row : SceneRow :=
        { request_type := request_type
          target_path := target_path
          include_inactive := if include_inactive then 1 else 0
          include_components := if include_components then 1 else 0
          status := "pending"
          priority := priority
          created_at := now
          started_at := none
          completed_at := none
          output_file := none
          error_message := none }
      ((s.nextId : Int),
        some { rows := s.rows ++ [(s.nextId, row)], nextId := s.nextId + 1 })
  else (-1, db)

/-- SceneHierarchyExporter.get_request_status: SELECT ... FROM
scene_hierarchy_requests WHERE id = ?. -/
def scene_get_request_status (s : SceneStore) (id : Nat) : Option SceneRow :=
  (s.rows.find? (fun p => p.1 == id)).map Prod.snd

/-- Terminal-status test of SceneHierarchyExporter.wait_for_completion, line
142 of scene_hierarchy.py: `status[...] in [completed, failed, cancelled]`;
the string timeout is again NOT in this list. -/
def sceneTerminalCheck (st : String) : Bool :=
  st == "completed" || st == "failed" || st == "cancelled"

/-- Loop body of SceneHierarchyExporter.wait_for_completion, identical in
structure to wait_step. -/
def scene_wait_step (sigma : Nat → SceneStore) (id : Nat) : Nat → Nat → String
  | _, 0 => "timeout"
  | k, fuel + 1 =>
    match scene_get_request_status (sigma k) id with
    | none => "not_found"
    | some row =>
      if sceneTerminalCheck row.status then row.status
      else scene_wait_step sigma id (k + 1) fuel

/-- SceneHierarchyExporter.wait_for_completion, with the same time model as
wait_for_completion. -/
def scene_wait_for_completion (sigma : Nat → SceneStore) (id : Nat)
    (timeout : Int) : String :=
  scene_wait_step sigma id 0 (2 * timeout).toNat

/-- Number of scene_get_request_status reads performed by the loop of
scene_wait_for_completion. -/
def scene_wait_polls (sigma : Nat → SceneStore) (id : Nat) : Nat → Nat → Nat
  | _, 0 => 0
  | k, fuel + 1 =>
    match scene_get_request_status (sigma k) id with
    | none => 1
    | some row =>
      if sceneTerminalCheck row.status then 1
      else 1 + scene_wait_polls sigma id (k + 1) fuel

/-- Number of scene_get_request_status reads performed by
SceneHierarchyExporter.wait_for_completion. -/
def scene_wait_poll_count (sigma : Nat → SceneStore) (id : Nat)
    (timeout : Int) : Nat :=
  scene_wait_polls sigma id 0 (2 * timeout).toNat

/-- Store-mutating operations the MenuCoordinator can issue. submit and cancel
are the only methods of the class that execute anything other than SELECT;
getStatus and listPending are SELECT-only, so their embeddings
(get_request_status, get_pending_requests) return no table and an op step for
them leaves the table as it is. -/
inductive MenuOp where
  | submit (menu_path : String) (priority : Int) (now : Nat)
  | cancel (id : Nat)
  | getStatus (id : Nat)
  | listPending
deriving Repr

/-- Effect of one coordinator operation on the table. -/
def MenuOp.apply (s : MenuStore) : MenuOp → MenuStore
  | .submit mp pr now => (submit_menu_request s mp pr now).2
  | .cancel id => (cancel_request s id).2
  | .getStatus _ => s
  | .listPending => s

/-- Table produced by a sequence of coordinator operations. -/
def runOps (s : MenuStore) (ops : List MenuOp) : MenuStore :=
  ops.foldl MenuOp.apply s

/-- Terminal statuses of the state machine of the spec, including the
server-side timeout. -/
def specTerminal (st : String) : Bool :=
  st == "completed" || st == "failed" || st == "cancelled" || st == "timeout"

/-- State-threaded form of the MenuCoordinator.wait_for_completion loop for a
run during which no other process writes to the table (the request is never
claimed). The table component records the database after each iteration; it is
handed on unchanged because the only statement the loop executes is the SELECT
of get_request_status. -/
def wait_run (s : MenuStore) (id : Nat) : Nat → String × MenuStore
  | 0 => ("timeout", s)
  | fuel + 1 =>
    match get_request_status s id with
    | none => ("not_found", s)
    | some row =>
      if menuTerminalCheck row.status then (row.status, s)
      else wait_run s id fuel

/-- The menu store holding no rows, as left by add_menu_table.py right after
CREATE TABLE (SQLite rowids start at 1). -/
def emptyMenuStore : MenuStore :=
  { rows := [], nextId := 1 }

/-- A row carrying the server-side status timeout (the status the executor of
the spec may write when the execution budget is exceeded). -/
def timeoutRow : MenuRow :=
  { menu_path := "Assets/Refresh"
    status := "timeout"
    priority := 0
    created_at := 0
    started_at := some 1
    completed_at := some 2
    duration_seconds := 0
    result := none
    error_message := none }

/-- A one-row table whose single request, rowid 1, is in status timeout. -/
def timeoutStore : MenuStore :=
  { rows := [(1, timeoutRow)], nextId := 2 }

/-- A pending request row used as a concrete input in witnesses. -/
def pendingRow : MenuRow :=
  { menu_path := "Assets/Create/Folder"
    status := "pending"
    priority := 0
    created_at := 0
    started_at := none
    completed_at := none
    duration_seconds := 0
    result := none
    error_message := none }

/-- A one-row table whose single request, rowid 1, is pending. -/
def pendingStore : MenuStore :=
  { rows := [(1, pendingRow)], nextId := 2 }

/-- A completed request row used as a concrete input in witnesses. -/
def doneRow : MenuRow :=
  { menu_path := "Assets/Refresh"
    status := "completed"
    priority := 0
    created_at := 0
    started_at := some 1
    completed_at := some 2
    duration_seconds := 0
    result := some "ok"
    error_message := none }

/-- A one-row table whose single request, rowid 1, is completed. -/
def doneStore : MenuStore :=
  { rows := [(1, doneRow)], nextId := 2 }

/-- The scene store holding no rows. -/
def sceneEmptyStore : SceneStore :=
  { rows := [], nextId := 1 }

/-- Executor trace in which request 1 is pending at poll 0 and deleted (for
example by a retention sweep) from poll 1 on. -/
def vanishTrace : Nat → MenuStore :=
  fun k => if k = 0 then pendingStore else emptyMenuStore

/-- Executor trace in which request 1 is pending at poll 0 and completed from
poll 1 on. -/
def completeTrace : Nat → MenuStore :=
  fun k => if k = 0 then pendingStore else doneStore

/-- Transitivity of the ORDER BY comparison. -/
theorem menuOrder_trans (a b c : Nat × MenuRow) (hab : menuOrder a b = true)
    (hbc : menuOrder b c = true) : menuOrder a c = true := by
  simp only [menuOrder, Bool.or_eq_true, Bool.and_eq_true, decide_eq_true_eq,
    beq_iff_eq] at hab hbc ⊢
  omega

/-- Totality of the ORDER BY comparison. -/
theorem menuOrder_total (a b : Nat × MenuRow) :
    (menuOrder a b || menuOrder b a) = true := by
  simp only [menuOrder, Bool.or_eq_true, Bool.and_eq_true, decide_eq_true_eq,
    beq_iff_eq]
  omega

/-- A key-preserving row transformation commutes with the WHERE id = ?
lookup. -/
theorem find?_key_map (l : List (Nat × MenuRow))
    (f : Nat × MenuRow → Nat × MenuRow) (hf : ∀ p, (f p).1 = p.1) (id : Nat) :
    (l.map f).find? (fun p => p.1 == id) =
      (l.find? (fun p => p.1 == id)).map f := by
  rw [List.find?_map]
  have hp : ((fun p => p.1 == id) ∘ f) = (fun p => p.1 == id) := by
    funext p
    simp [Function.comp, hf]
  rw [hp]

/-- The UPDATE of cancel_request does not change rowids. -/
theorem cancelMap_key (id : Nat) (p : Nat × MenuRow) :
    (if cancelHit id p then (p.1, { p.2 with status := "cancelled" })
      else p).1 = p.1 := by
  by_cases h : cancelHit id p <;> simp [h]

/-- C6: get_pending_requests returns exactly the rows whose status is pending,
sorted by priority descending with ties broken by created_at ascending. The
operation is a SELECT, embedded as a pure function of the table, so it
performs no write. -/
theorem getPendingRequests_sorted (s : MenuStore) :
    (get_pending_requests s).Perm
        (s.rows.filter (fun p => p.2.status == "pending")) ∧
      (get_pending_requests s).Pairwise (fun a b => menuOrder a b = true) :=
  ⟨List.mergeSort_perm _ _,
    List.sorted_mergeSort menuOrder_trans menuOrder_total _⟩

/-- C2 counterexample: submitting a menu-execution request with an empty menu
path does not fail and does insert a row — the pending count observed via
get_pending_requests goes from 0 to 1. submit_menu_request performs no
validation of the payload before the INSERT. -/
theorem submit_empty_menu_path_inserts :
    (get_pending_requests emptyMenuStore).length = 0 ∧
      (submit_menu_request emptyMenuStore "" 0 0).1 = 1 ∧
      (get_pending_requests
          (submit_menu_request emptyMenuStore "" 0 0).2).length = 1 := by
  refine ⟨?_, rfl, ?_⟩ <;>
    simp [get_pending_requests, List.length_mergeSort, submit_menu_request,
      emptyMenuStore, newMenuRow]

/-- C2 amended: submit never validates the payload: for every menu path,
including the empty one, it inserts exactly one new row (status pending), and
the pending count observed via get_pending_requests increases by one. -/
theorem submit_no_payload_validation (s : MenuStore) (mp : String) (pr : Int)
    (now : Nat) :
    (submit_menu_request s mp pr now).1 = s.nextId ∧
      (submit_menu_request s mp pr now).2.rows.length = s.rows.length + 1 ∧
      (get_pending_requests (submit_menu_request s mp pr now).2).length =
        (get_pending_requests s).length + 1 := by
  refine ⟨rfl, by simp [submit_menu_request], ?_⟩
  simp [get_pending_requests, List.length_mergeSort, submit_menu_request,
    List.filter_append, newMenuRow]

/-- C10: when the scene_hierarchy_requests table is missing,
submit_export_request returns the sentinel -1 and inserts nothing (the
database is untouched); on every successful submission against an existing
table, the returned id is the fresh rowid, which is non-negative, and exactly
one row is appended. -/
theorem submitExport_sentinel (rt : String) (tp : Option String)
    (ii ic : Bool) (pr : Int) (now : Nat) :
    submit_export_request none rt tp ii ic pr now = (-1, none) ∧
      ∀ s : SceneStore,
        (submit_export_request (some s) rt tp ii ic pr now).1 =
            (s.nextId : Int) ∧
          0 ≤ (submit_export_request (some s) rt tp ii ic pr now).1 ∧
          ∀ s2, (submit_export_request (some s) rt tp ii ic pr now).2 =
              some s2 → s2.rows.length = s.rows.length + 1 := by
  refine ⟨by simp [submit_export_request, ensure_table_exists], ?_⟩
  intro s
  refine ⟨by simp [submit_export_request, ensure_table_exists], ?_, ?_⟩
  · simp [submit_export_request, ensure_table_exists]
  · intro s2 h
    simp [submit_export_request, ensure_table_exists] at h
    simp [← h]

/-- C9: with a non-positive timeout the wall-clock guard fails before the
first poll, so wait_for_completion returns the local timeout having performed
zero get_request_status reads, whatever the table holds — the same holds for
the scene-hierarchy coordinator. -/
theorem wait_nonpositive_timeout (sigma : Nat → MenuStore)
    (tau : Nat → SceneStore) (id jd : Nat) (timeout : Int)
    (h : timeout ≤ 0) :
    wait_for_completion sigma id timeout = "timeout" ∧
      wait_poll_count sigma id timeout = 0 ∧
      scene_wait_for_completion tau jd timeout = "timeout" ∧
      scene_wait_poll_count tau jd timeout = 0 := by
  have h2 : (2 * timeout).toNat = 0 := by omega
  refine ⟨?_, ?_, ?_, ?_⟩ <;>
    simp [wait_for_completion, wait_poll_count, scene_wait_for_completion,
      scene_wait_poll_count, h2, wait_step, wait_polls, scene_wait_step,
      scene_wait_polls]

/-- Skipping lemma for the poll loop: while the first m polls all see the row
present with a status the code does not treat as terminal, the loop keeps
going, reading once per poll. -/
theorem wait_step_skip (sigma : Nat → MenuStore) (id : Nat) :
    ∀ m k fuel : Nat,
      (∀ j < m, ∃ q, get_request_status (sigma (k + j)) id = some q ∧
        menuTerminalCheck q.status = false) →
      m ≤ fuel →
      wait_step sigma id k fuel = wait_step sigma id (k + m) (fuel - m) ∧
        wait_polls sigma id k fuel =
          m + wait_polls sigma id (k + m) (fuel - m) := by
  intro m
  induction m with
  | zero =>
    intro k fuel h hm
    simp
  | succ n ih =>
    intro k fuel h hm
    obtain ⟨fuel, rfl⟩ : ∃ f2, fuel = f2 + 1 := ⟨fuel - 1, by omega⟩
    obtain ⟨q, hq, hqt⟩ := h 0 (Nat.succ_pos n)
    rw [Nat.add_zero] at hq
    have step1 : wait_step sigma id k (fuel + 1) =
        wait_step sigma id (k + 1) fuel := by
      simp [wait_step, hq, hqt]
    have step2 : wait_polls sigma id k (fuel + 1) =
        1 + wait_polls sigma id (k + 1) fuel := by
      simp [wait_polls, hq, hqt]
    have hpre2 : ∀ j < n, ∃ q,
        get_request_status (sigma (k + 1 + j)) id = some q ∧
          menuTerminalCheck q.status = false := by
      intro j hj
      have e : k + 1 + j = k + (j + 1) := by omega
      rw [e]
      exact h (j + 1) (by omega)
    have hih := ih (k + 1) fuel hpre2 (by omega)
    have e1 : k + 1 + n = k + (n + 1) := by omega
    have e2 : fuel - n = fuel + 1 - (n + 1) := by omega
    constructor
    · rw [step1, hih.1, e1, e2]
    · rw [step2, hih.2, e1, e2]
      omega

/-- C5: when the stored status stays outside the code terminal set for the
whole wait and no other process writes (the request is never claimed),
wait_for_completion returns the local string timeout as an ordinary value, and
performs no write: in the state-threaded form of the loop the table after the
call is exactly the table before it, so the stored row — for example one still
pending — is exactly as it was. -/
theorem waitForCompletion_local_timeout (s : MenuStore) (id : Nat)
    (timeout : Int) (r : MenuRow)
    (hr : get_request_status s id = some r)
    (ht : menuTerminalCheck r.status = false) :
    wait_for_completion (fun _ => s) id timeout = "timeout" ∧
      wait_run s id (2 * timeout).toNat = ("timeout", s) ∧
      get_request_status s id = some r := by
  refine ⟨?_, ?_, hr⟩
  · have h := wait_step_skip (fun _ => s) id (2 * timeout).toNat 0
      (2 * timeout).toNat (fun j _ => ⟨r, hr, ht⟩) le_rfl
    simpa [wait_for_completion, Nat.sub_self, wait_step] using h.1
  · induction (2 * timeout).toNat with
    | zero => rfl
    | succ n ih => simp [wait_run, hr, ht, ih]

/-- C5 witness: a table whose only request, rowid 1, stays pending; with a one
second budget the wait returns the local timeout and the table is unchanged. -/
theorem waitForCompletion_local_timeout_witness :
    get_request_status pendingStore 1 = some pendingRow ∧
      menuTerminalCheck pendingRow.status = false ∧
      (wait_for_completion (fun _ => pendingStore) 1 1 = "timeout" ∧
        wait_run pendingStore 1 (2 * (1 : Int)).toNat =
          ("timeout", pendingStore) ∧
        get_request_status pendingStore 1 = some pendingRow) :=
  ⟨rfl, rfl,
    waitForCompletion_local_timeout pendingStore 1 1 pendingRow rfl rfl⟩

/-- C8: when the id is absent from the table at poll m, the earlier polls all
having seen it present and in flight, wait_for_completion returns not_found at
that poll — after exactly m + 1 reads — rather than polling on until the full
budget elapses. -/
theorem waitForCompletion_not_found (sigma : Nat → MenuStore) (id : Nat)
    (timeout : Int) (m : Nat)
    (hm : (m : Int) < 2 * timeout)
    (hpre : ∀ j < m, ∃ q, get_request_status (sigma j) id = some q ∧
      menuTerminalCheck q.status = false)
    (hmiss : get_request_status (sigma m) id = none) :
    wait_for_completion sigma id timeout = "not_found" ∧
      wait_poll_count sigma id timeout = m + 1 := by
  have hfuel : m < (2 * timeout).toNat := by omega
  have h := wait_step_skip sigma id m 0 (2 * timeout).toNat
    (by simpa using hpre) (by omega)
  obtain ⟨t, ht⟩ : ∃ t, (2 * timeout).toNat - m = t + 1 :=
    ⟨(2 * timeout).toNat - m - 1, by omega⟩
  constructor
  · rw [wait_for_completion, h.1, ht]
    simp [wait_step, hmiss]
  · rw [wait_poll_count, h.2, ht]
    simp [wait_polls, hmiss]

/-- C8 witness: request 1 is pending at poll 0 and deleted from poll 1 on;
with a 60 second budget the wait returns not_found after 2 reads. -/
theorem waitForCompletion_not_found_witness :
    ((1 : Int) < 2 * 60) ∧
      (wait_for_completion vanishTrace 1 60 = "not_found" ∧
        wait_poll_count vanishTrace 1 60 = 1 + 1) :=
  ⟨by norm_num,
    waitForCompletion_not_found vanishTrace 1 60 1 (by norm_num)
      (by
        intro j hj
        have hj0 : j = 0 := by omega
        subst hj0
        exact ⟨pendingRow, rfl, rfl⟩)
      rfl⟩

/-- C1 amended: wait_for_completion polls get_request_status on a fixed 0.5
second interval and returns the stored status as soon as the observed status
is one of completed, failed, cancelled — at read m + 1 when poll m is the
first to see such a status; every status outside that three-element set,
including the server-side timeout, is treated as still in flight. -/
theorem waitForCompletion_returns_on_terminal (sigma : Nat → MenuStore)
    (id : Nat) (timeout : Int) (m : Nat) (r : MenuRow)
    (hm : (m : Int) < 2 * timeout)
    (hpre : ∀ j < m, ∃ q, get_request_status (sigma j) id = some q ∧
      menuTerminalCheck q.status = false)
    (hterm : get_request_status (sigma m) id = some r)
    (ht : menuTerminalCheck r.status = true) :
    wait_for_completion sigma id timeout = r.status ∧
      wait_poll_count sigma id timeout = m + 1 := by
  have hfuel : m < (2 * timeout).toNat := by omega
  have h := wait_step_skip sigma id m 0 (2 * timeout).toNat
    (by simpa using hpre) (by omega)
  obtain ⟨t, htt⟩ : ∃ t, (2 * timeout).toNat - m = t + 1 :=
    ⟨(2 * timeout).toNat - m - 1, by omega⟩
  constructor
  · rw [wait_for_completion, h.1, htt]
    simp [wait_step, hterm, ht]
  · rw [wait_poll_count, h.2, htt]
    simp [wait_polls, hterm, ht]

/-- C1 amended witness: request 1 is pending at poll 0 and completed from poll
1 on; with a 60 second budget the wait returns completed after 2 reads. -/
theorem waitForCompletion_returns_on_terminal_witness :
    ((1 : Int) < 2 * 60) ∧
      (wait_for_completion completeTrace 1 60 = doneRow.status ∧
        wait_poll_count completeTrace 1 60 = 1 + 1) :=
  ⟨by norm_num,
    waitForCompletion_returns_on_terminal completeTrace 1 60 1 doneRow
      (by norm_num)
      (by
        intro j hj
        have hj0 : j = 0 := by omega
        subst hj0
        exact ⟨pendingRow, rfl, rfl⟩)
      rfl rfl⟩

/-- C1 counterexample: rowid 1 of timeoutStore carries the stored server-side
status timeout; the terminal test of the code rejects it (for the menu and the
scene-hierarchy coordinator alike), so with a 2 second budget the wait does
not return at the first poll: it reads the status 4 times, i.e. it treats the
stored timeout as in flight until the local budget is exhausted, where the
claim predicted an immediate return after a single read. -/
theorem storedTimeout_not_recognized_terminal :
    menuTerminalCheck "timeout" = false ∧
      sceneTerminalCheck "timeout" = false ∧
      get_request_status timeoutStore 1 = some timeoutRow ∧
      wait_poll_count (fun _ => timeoutStore) 1 2 = 4 ∧
      wait_for_completion (fun _ => timeoutStore) 1 2 = "timeout" :=
  ⟨rfl, rfl, rfl, rfl, rfl⟩

/-- Fresh rowids are not found among the existing rows of a well-formed
table. -/
theorem find?_fresh_none (s : MenuStore) (hwf : s.Wf) :
    s.rows.find? (fun p => p.1 == s.nextId) = none := by
  rw [List.find?_eq_none]
  intro p hp
  simp only [beq_iff_eq]
  intro e
  exact absurd (e ▸ hwf.2 p hp) (lt_irrefl _)

/-- C7: submit followed immediately by get_request_status on the returned id
yields a row whose status is pending and whose started_at and completed_at are
both null — submit specifies only menu_path and priority in its INSERT and
relies on the table defaults for everything else. -/
theorem submit_then_getStatus_pending (s : MenuStore) (mp : String) (pr : Int)
    (now : Nat) (hwf : s.Wf) :
    ∃ r, get_request_status (submit_menu_request s mp pr now).2
          (submit_menu_request s mp pr now).1 = some r ∧
        r.status = "pending" ∧ r.started_at = none ∧ r.completed_at = none := by
  refine ⟨newMenuRow mp pr now, ?_, rfl, rfl, rfl⟩
  simp only [submit_menu_request, get_request_status]
  rw [List.find?_append, find?_fresh_none s hwf]
  simp

/-- C7 witness: submitting against the freshly created empty table and reading
the returned id back gives a pending row with both timestamps null. -/
theorem submit_then_getStatus_pending_witness :
    emptyMenuStore.Wf ∧
      ∃ r, get_request_status
            (submit_menu_request emptyMenuStore "Assets/Refresh" 5 7).2
            (submit_menu_request emptyMenuStore "Assets/Refresh" 5 7).1 =
            some r ∧
          r.status = "pending" ∧ r.started_at = none ∧ r.completed_at = none :=
  ⟨by decide,
    submit_then_getStatus_pending emptyMenuStore "Assets/Refresh" 5 7
      (by decide)⟩

/-- A map whose function fixes every element of the list is the identity. -/
theorem map_id_of_fix {α : Type} (l : List α) (f : α → α)
    (h : ∀ a ∈ l, f a = a) : l.map f = l := by
  induction l with
  | nil => rfl
  | cons x xs ih =>
    rw [List.map_cons, h x (List.mem_cons_self x xs),
      ih (fun a ha => h a (List.mem_cons_of_mem x ha))]

/-- Unfolding of the WHERE id = ? lookup. -/
theorem get_some_iff_find (s : MenuStore) (id : Nat) (r : MenuRow) :
    get_request_status s id = some r ↔
      ∃ q, s.rows.find? (fun p => p.1 == id) = some q ∧ q.2 = r := by
  unfold get_request_status
  cases s.rows.find? (fun p => p.1 == id) <;> simp

/-- In a well-formed table, when some row passes the WHERE clause of the
cancel UPDATE, the WHERE id = ? lookup finds exactly that row, and it is
pending. -/
theorem cancel_found_pending (s : MenuStore) (id : Nat) (hwf : s.Wf)
    (h : s.rows.any (cancelHit id) = true) :
    ∃ p, s.rows.find? (fun q => q.1 == id) = some p ∧ p.1 = id ∧
      p.2.status = "pending" := by
  obtain ⟨p0, hp0, hhit⟩ := List.any_eq_true.mp h
  simp only [cancelHit, Bool.and_eq_true, beq_iff_eq] at hhit
  cases hfind : s.rows.find? (fun q => q.1 == id) with
  | none =>
    exact absurd (by simp [hhit.1]) (List.find?_eq_none.mp hfind p0 hp0)
  | some q0 =>
    have hq0m := List.mem_of_find?_eq_some hfind
    have hq0k : q0.1 = id := by simpa using List.find?_some hfind
    have heq : q0 = p0 :=
      List.inj_on_of_nodup_map hwf.1 hq0m hp0 (by rw [hq0k, hhit.1])
    exact ⟨q0, rfl, hq0k, by rw [heq]; exact hhit.2⟩

/-- Rows for which the WHERE clause of the cancel UPDATE fails are left
unchanged by it. -/
theorem cancelMap_miss (id : Nat) (p : Nat × MenuRow)
    (h : cancelHit id p = false) :
    (if cancelHit id p then (p.1, { p.2 with status := "cancelled" })
      else p) = p := by
  simp [h]

/-- C3: cancel_request returns true and sets the status to cancelled exactly
when the status immediately prior to the call was pending; in every other
case — running, terminal, or nonexistent id — it returns false and leaves the
table unchanged; and a second cancel right after a successful one returns
false and changes nothing, so two cancels in a row on a pending request yield
true then false. -/
theorem cancelRequest_pending_iff (s : MenuStore) (id : Nat) (hwf : s.Wf) :
    ((cancel_request s id).1 = true ↔
        ∃ r, get_request_status s id = some r ∧ r.status = "pending") ∧
      ((cancel_request s id).1 = false → (cancel_request s id).2 = s) ∧
      ((cancel_request s id).1 = true →
        get_request_status (cancel_request s id).2 id =
            (get_request_status s id).map
              (fun r => { r with status := "cancelled" }) ∧
          cancel_request (cancel_request s id).2 id =
            (false, (cancel_request s id).2)) := by
  refine ⟨⟨?_, ?_⟩, ?_, ?_⟩
  · intro h
    obtain ⟨p, hfind, hk, hst⟩ := cancel_found_pending s id hwf h
    exact ⟨p.2, by simp [get_request_status, hfind], hst⟩
  · rintro ⟨r, hget, hst⟩
    obtain ⟨q0, hfind, hq0⟩ := (get_some_iff_find s id r).mp hget
    refine List.any_eq_true.mpr ⟨q0, List.mem_of_find?_eq_some hfind, ?_⟩
    have hq0k : q0.1 = id := by simpa using List.find?_some hfind
    simp [cancelHit, hq0k, hq0, hst]
  · intro h
    have hall : ∀ p ∈ s.rows, cancelHit id p = false := fun p hp => by
      simpa using List.any_eq_false.mp h p hp
    have hmap : s.rows.map (fun p =>
        if cancelHit id p then (p.1, { p.2 with status := "cancelled" })
        else p) = s.rows :=
      map_id_of_fix _ _ (fun p hp => cancelMap_miss id p (hall p hp))
    have hrw : (cancel_request s id).2 = { s with rows := s.rows.map (fun p =>
        if cancelHit id p then (p.1, { p.2 with status := "cancelled" })
        else p) } := rfl
    rw [hrw, hmap]
  · intro h
    obtain ⟨p, hfind, hk, hst⟩ := cancel_found_pending s id hwf h
    have hhit : cancelHit id p = true := by simp [cancelHit, hk, hst]
    have hrows : (cancel_request s id).2.rows = s.rows.map (fun p =>
        if cancelHit id p then (p.1, { p.2 with status := "cancelled" })
        else p) := rfl
    constructor
    · have h1 : (cancel_request s id).2.rows.find? (fun q => q.1 == id) =
          some (p.1, { p.2 with status := "cancelled" }) := by
        rw [hrows, find?_key_map _ _ (cancelMap_key id) id, hfind]
        simp [hhit]
      simp [get_request_status, h1, hfind]
    · have hall2 : ∀ q ∈ (cancel_request s id).2.rows,
          cancelHit id q = false := by
        intro q hq
        rw [hrows] at hq
        obtain ⟨p0, hp0, rfl⟩ := List.mem_map.mp hq
        by_cases hc : cancelHit id p0 = true
        · rw [if_pos hc]
          simp [cancelHit]
        · have hc2 : cancelHit id p0 = false := by simpa using hc
          rw [cancelMap_miss id p0 hc2]
          exact hc2
      have hfalse2 : (cancel_request s id).2.rows.any (cancelHit id) =
          false := by
        rw [List.any_eq_false]
        intro q hq
        simp [hall2 q hq]
      have hmap2 : (cancel_request s id).2.rows.map (fun p =>
          if cancelHit id p then (p.1, { p.2 with status := "cancelled" })
          else p) = (cancel_request s id).2.rows :=
        map_id_of_fix _ _ (fun q hq => cancelMap_miss id q (hall2 q hq))
      have hrw2 : cancel_request (cancel_request s id).2 id =
          ((cancel_request s id).2.rows.any (cancelHit id),
            { (cancel_request s id).2 with
              rows := (cancel_request s id).2.rows.map (fun p =>
                if cancelHit id p then
                  (p.1, { p.2 with status := "cancelled" })
                else p) }) := rfl
      rw [hrw2, hfalse2, hmap2]

/-- C3 witness: canceling the pending request 1 of pendingStore succeeds, a
second cancel returns false, and both behaviors agree with the stored
status. -/
theorem cancelRequest_pending_iff_witness :
    pendingStore.Wf ∧
      (((cancel_request pendingStore 1).1 = true ↔
          ∃ r, get_request_status pendingStore 1 = some r ∧
            r.status = "pending") ∧
        ((cancel_request pendingStore 1).1 = false →
          (cancel_request pendingStore 1).2 = pendingStore) ∧
        ((cancel_request pendingStore 1).1 = true →
          get_request_status (cancel_request pendingStore 1).2 1 =
              (get_request_status pendingStore 1).map
                (fun r => { r with status := "cancelled" }) ∧
            cancel_request (cancel_request pendingStore 1).2 1 =
              (false, (cancel_request pendingStore 1).2))) :=
  ⟨by decide, cancelRequest_pending_iff pendingStore 1 (by decide)⟩

/-- The INSERT of submit_menu_request leaves every row that was already
visible by id untouched. -/
theorem get_after_submit (s : MenuStore) (mp : String) (pr : Int) (now : Nat)
    (id : Nat) (q : MenuRow) (h : get_request_status s id = some q) :
    get_request_status (submit_menu_request s mp pr now).2 id = some q := by
  obtain ⟨q0, hfind, hq0⟩ := (get_some_iff_find s id q).mp h
  apply (get_some_iff_find _ id q).mpr
  refine ⟨q0, ?_, hq0⟩
  show (s.rows ++ [(s.nextId, newMenuRow mp pr now)]).find?
      (fun p => p.1 == id) = some q0
  rw [List.find?_append, hfind]
  rfl

/-- The conditional UPDATE of cancel_request leaves every row whose status is
not pending untouched. -/
theorem get_after_cancel (s : MenuStore) (cid id : Nat) (q : MenuRow)
    (h : get_request_status s id = some q) (hnp : q.status ≠ "pending") :
    get_request_status (cancel_request s cid).2 id = some q := by
  obtain ⟨q0, hfind, hq0⟩ := (get_some_iff_find s id q).mp h
  apply (get_some_iff_find _ id q).mpr
  have hst : (q0.2.status == "pending") = false := by
    rw [hq0]
    exact beq_eq_false_iff_ne.mpr hnp
  have hmiss : cancelHit cid q0 = false := by
    simp [cancelHit, hst]
  refine ⟨q0, ?_, hq0⟩
  have hrows : (cancel_request s cid).2.rows = s.rows.map (fun p =>
      if cancelHit cid p then (p.1, { p.2 with status := "cancelled" })
      else p) := rfl
  rw [hrows, find?_key_map _ _ (cancelMap_key cid) id, hfind]
  rw [Option.map_some']
  rw [cancelMap_miss cid q0 hmiss]

/-- One coordinator operation never disturbs a row whose status is not
pending. -/
theorem menuOp_keeps_nonpending (s : MenuStore) (op : MenuOp) (id : Nat)
    (r : MenuRow) (hget : get_request_status s id = some r)
    (hnp : r.status ≠ "pending") :
    get_request_status (MenuOp.apply s op) id = some r := by
  cases op with
  | submit mp pr now => exact get_after_submit s mp pr now id r hget
  | cancel cid => exact get_after_cancel s cid id r hget hnp
  | getStatus _ => exact hget
  | listPending => exact hget

/-- After one coordinator operation, every row visible by id is either a row
that was already visible unchanged, or carries a status the coordinator is
allowed to write: pending (fresh INSERT) or cancelled (conditional UPDATE). -/
theorem menuOp_new_status (s : MenuStore) (op : MenuOp) (id : Nat)
    (r2 : MenuRow)
    (h : get_request_status (MenuOp.apply s op) id = some r2) :
    get_request_status s id = some r2 ∨ r2.status = "pending" ∨
      r2.status = "cancelled" := by
  cases op with
  | getStatus _ => exact Or.inl h
  | listPending => exact Or.inl h
  | submit mp pr now =>
    obtain ⟨q, hfind, hq⟩ := (get_some_iff_find _ id r2).mp h
    have hfind2 : (s.rows ++ [(s.nextId, newMenuRow mp pr now)]).find?
        (fun p => p.1 == id) = some q := hfind
    rw [List.find?_append] at hfind2
    cases hf : s.rows.find? (fun p => p.1 == id) with
    | some q0 =>
      rw [hf] at hfind2
      have hq0 : q0 = q := by simpa using hfind2
      exact Or.inl ((get_some_iff_find s id r2).mpr ⟨q0, hf, hq0 ▸ hq⟩)
    | none =>
      rw [hf] at hfind2
      by_cases hid : (s.nextId == id) = true
      · have hq1 : q = (s.nextId, newMenuRow mp pr now) := by
          simp only [Option.none_or, List.find?, hid] at hfind2
          exact (Option.some_inj.mp hfind2).symm
        refine Or.inr (Or.inl ?_)
        rw [← hq, hq1]
        rfl
      · have hid2 : (s.nextId == id) = false := by simpa using hid
        simp only [Option.none_or, List.find?, hid2] at hfind2
        cases hfind2
  | cancel cid =>
    obtain ⟨q, hfind, hq⟩ := (get_some_iff_find _ id r2).mp h
    have hrows : (MenuOp.apply s (MenuOp.cancel cid)).rows =
        s.rows.map (fun p =>
          if cancelHit cid p then (p.1, { p.2 with status := "cancelled" })
          else p) := rfl
    rw [hrows, find?_key_map _ _ (cancelMap_key cid) id] at hfind
    cases hf : s.rows.find? (fun p => p.1 == id) with
    | none =>
      rw [hf] at hfind
      cases hfind
    | some q0 =>
      rw [hf, Option.map_some'] at hfind
      have hfq : (if cancelHit cid q0 then
          (q0.1, { q0.2 with status := "cancelled" }) else q0) = q :=
        Option.some_inj.mp hfind
      by_cases hc : cancelHit cid q0 = true
      · refine Or.inr (Or.inr ?_)
        rw [if_pos hc] at hfq
        rw [← hq, ← hfq]
      · have hc2 : cancelHit cid q0 = false := by simpa using hc
        rw [cancelMap_miss cid q0 hc2] at hfq
        exact Or.inl ((get_some_iff_find s id r2).mpr ⟨q0, hf, hfq ▸ hq⟩)

/-- Rows whose status is not pending survive any sequence of coordinator
operations unchanged. -/
theorem runOps_keeps_nonpending (s : MenuStore) (ops : List MenuOp) (id : Nat)
    (r : MenuRow) (hget : get_request_status s id = some r)
    (hnp : r.status ≠ "pending") :
    get_request_status (runOps s ops) id = some r := by
  induction ops generalizing s with
  | nil => exact hget
  | cons op ops ih =>
    exact ih (MenuOp.apply s op)
      (menuOp_keeps_nonpending s op id r hget hnp)

/-- After any sequence of coordinator operations, every visible row is either
an original row unchanged or carries status pending or cancelled. -/
theorem runOps_writes (s : MenuStore) (ops : List MenuOp) (id : Nat)
    (r2 : MenuRow)
    (h : get_request_status (runOps s ops) id = some r2) :
    get_request_status s id = some r2 ∨ r2.status = "pending" ∨
      r2.status = "cancelled" := by
  induction ops generalizing s with
  | nil => exact Or.inl h
  | cons op ops ih =>
    rcases ih (MenuOp.apply s op) h with h1 | h2
    · exact menuOp_new_status s op id r2 h1
    · exact Or.inr h2

/-- C4: the coordinator writes respect the state machine: across any sequence
of coordinator operations a request in a terminal state (completed, failed,
cancelled, or the server-side timeout) never changes, because submit only
inserts fresh rows in the initial state pending and cancel only moves pending
rows to cancelled; consequently every status the coordinator ever writes is
pending or cancelled — never running, completed, failed, or timeout. -/
theorem coordinator_write_discipline (s : MenuStore) (ops : List MenuOp)
    (id : Nat) :
    (∀ r, get_request_status s id = some r → specTerminal r.status = true →
      get_request_status (runOps s ops) id = some r) ∧
      (∀ r2, get_request_status (runOps s ops) id = some r2 →
        get_request_status s id = some r2 ∨ r2.status = "pending" ∨
          r2.status = "cancelled") := by
  constructor
  · intro r hget hterm
    apply runOps_keeps_nonpending s ops id r hget
    intro hpend
    rw [hpend] at hterm
    exact absurd hterm (by decide)
  · intro r2 h
    exact runOps_writes s ops id r2 h

/-- C4 witness: against a table whose request 1 is completed, a sequence of
cancel and submit operations leaves request 1 exactly as it was. -/
theorem coordinator_write_discipline_witness :
    get_request_status doneStore 1 = some doneRow ∧
      specTerminal doneRow.status = true ∧
      get_request_status
          (runOps doneStore
            [MenuOp.cancel 1, MenuOp.submit "Edit/Play" 0 9, MenuOp.cancel 2])
          1 = some doneRow :=
  ⟨rfl, rfl,
    (coordinator_write_discipline doneStore
        [MenuOp.cancel 1, MenuOp.submit "Edit/Play" 0 9, MenuOp.cancel 2]
        1).1
      doneRow rfl rfl⟩

/-- C9 witness: with timeout 0 the wait returns the local timeout with zero
reads even though the stored row of doneStore is already completed. -/
theorem wait_nonpositive_timeout_witness :
    ((0 : Int) ≤ 0) ∧
      (wait_for_completion (fun _ => doneStore) 1 0 = "timeout" ∧
        wait_poll_count (fun _ => doneStore) 1 0 = 0 ∧
        scene_wait_for_completion (fun _ => sceneEmptyStore) 1 0 = "timeout" ∧
        scene_wait_poll_count (fun _ => sceneEmptyStore) 1 0 = 0) :=
  ⟨le_refl 0,
    wait_nonpositive_timeout (fun _ => doneStore) (fun _ => sceneEmptyStore)
      1 1 0 (le_refl 0)⟩

/-- C10 witness: the sentinel and the sign of the returned id at concrete
inputs. -/
theorem submitExport_sentinel_witness :
    submit_export_request none "full" none true true 0 5 = (-1, none) ∧
      0 ≤ (submit_export_request (some sceneEmptyStore) "full" none true true
        0 5).1 :=
  ⟨(submitExport_sentinel "full" none true true 0 5).1,
    ((submitExport_sentinel "full" none true true 0 5).2 sceneEmptyStore).2.1⟩
